import Mathlib

/-!
# Git cloners of `api/internal/git`

A shallow embedding of `cloner.go` and `gitrunner.go`.

* Go strings are Lean strings; Go `error` values are `Option GoError`
  (`none` is `nil`), and a Go `(value, error)` return is a pair.
* The cloners mutate `*repoSpec`, read and write the file system and start
  subprocesses.  Here they are functions taking the spec and the file-system
  state and returning a `Result`: the spec after the call, the returned error,
  the file system after the call and the list of operations issued, in order.
* What the outside world answers (is `git` on the path, does a command exit
  zero, does the rename succeed) is given by an `Env`.
* `RepoSpec.CloneSpec`, `ConfirmedDir.Join` live in files that are not part of
  this development; they are taken as parameters (`Lib`).  `utils.TimedCall`
  is modelled from the specification.
* The file system is a set of directories.  `os.Mkdir` and `os.RemoveAll`, whose
  errors the code drops, take effect; a failed `os.Rename` changes nothing; a
  git command does not create or remove any of the directories tracked.
* `log.Printf` lines only write to the process log and are left out.
-/

namespace Git

/-! ## Errors -/

/-- Go error values: an error coming from the outside world, an error wrapped
with a message by `errors.Wrap`/`errors.Wrapf`, and the timeout error of
`utils.TimedCall`. -/
inductive GoError where
  | ext (msg : String)
  | wrapped (cause : GoError) (msg : String)
  | timeOut (d : Nat) (description : String)
  deriving DecidableEq, Repr

/-- The error `errors.Wrap(err, msg)` for a non-nil `err`. -/
def Wrap (err : GoError) (msg : String) : GoError := GoError.wrapped err msg

/-! ## Strings -/

/-- Scanning loop of `strings.ReplaceAll` for a non-empty `old`: `k` is the
number of characters still to skip because they belong to a match already
replaced. -/
def replaceAllAux (old new : List Char) : Nat → List Char → List Char
  | _, [] => []
  | k + 1, _ :: cs => replaceAllAux old new k cs
  | 0, c :: cs =>
    if old.isPrefixOf (c :: cs) then new ++ replaceAllAux old new (old.length - 1) cs
    else c :: replaceAllAux old new 0 cs

/-- Go `strings.ReplaceAll(s, old, new)`: every non-overlapping instance of `old`
replaced by `new`; an empty `old` matches at the start and after every
character. -/
def ReplaceAll (s old new : String) : String :=
  if old.data = [] then String.mk (new.data ++ s.data.flatMap (fun c => c :: new.data))
  else String.mk (replaceAllAux old.data new.data 0 s.data)

/-- Go `fmt.Sprintf("%s_%s_%s", a, b, c)`. -/
def Sprintf3 (a b c : String) : String := a ++ "_" ++ b ++ "_" ++ c

/-! ## Data model -/

/-- The struct `RepoSpec`: the fields the cloners read or write, and `rest` for every
other field of the struct. -/
structure RepoSpec (ρ : Type) where
  Host : String
  OrgRepo : String
  Ref : String
  Dir : String
  rest : ρ

/-- Functions of other files used by the cloners. -/
structure Lib (ρ : Type) where
  /-- The method `(*RepoSpec).CloneSpec()`. -/
  CloneSpec : RepoSpec ρ → String
  /-- The method `ConfirmedDir.Join(path)`. -/
  Join : String → String → String

/-- An `exec.Cmd` as the code builds it: `path` is the program name as it is
passed to `exec.Command`, `args` the arguments after it, `dir` the working
directory (`""` when `cmd.Dir` is not set).  Resolving a bare program name on
the search path, which `exec.Command` does, belongs to the outside world: it
shows in what `cmd.Run()` answers and in what `cmd.String()` prints. -/
structure Cmd where
  path : String
  args : List String
  dir : String
  deriving DecidableEq, Repr

/-- Go `exec.Command(name, args...)`, the name kept as given. -/
def Command (name : String) (args : List String) : Cmd := ⟨name, args, ""⟩

/-- Operations on the outside world, as issued by the cloners. -/
inductive Op where
  | lookPath (file : String)
  | gitRootDir
  | mkdir (p : String)
  | stat (p : String)
  | newTmpDir
  | run (c : Cmd)
  | rename (oldpath newpath : String)
  | removeAll (p : String)
  deriving DecidableEq, Repr

/-- Answers of the outside world during one call. -/
structure Env where
  /-- Result of `exec.LookPath(file)`. -/
  lookPath : String → String × Option GoError
  /-- Result of `filesys.GitRootDir()`. -/
  gitRootDir : String × Option GoError
  /-- Result of `filesys.NewTmpConfirmedDir()`. -/
  newTmpDir : String × Option GoError
  /-- Result of `cmd.Run()`: `none` when the command exits zero. -/
  run : Cmd → Option GoError
  /-- Result of `os.Rename(oldpath, newpath)`. -/
  rename : String → String → Option GoError

/-- File system, at the granularity of the directories the cloners handle:
`dirs` are the directories present; `denied` are the paths on which `os.Stat`
fails with an error other than "does not exist". -/
structure FS where
  dirs : List String
  denied : List String
  deriving DecidableEq, Repr

/-- Outcome of `os.Stat(p)` as seen through `os.IsNotExist`. -/
inductive StatResult where
  | found
  | notExist
  | otherError
  deriving DecidableEq, Repr

namespace FS

/-- Result of `os.Stat(p)`. -/
def stat (fs : FS) (p : String) : StatResult :=
  if p ∈ fs.denied then StatResult.otherError
  else if p ∈ fs.dirs then StatResult.found
  else StatResult.notExist

/-- Effect of `os.Mkdir(p, perm)` with the error dropped: creates `p` unless present. -/
def mkdir (fs : FS) (p : String) : FS :=
  if p ∈ fs.dirs then fs else { fs with dirs := p :: fs.dirs }

/-- Directory `p` created by a successful `NewTmpConfirmedDir`. -/
def addDir (fs : FS) (p : String) : FS :=
  if p ∈ fs.dirs then fs else { fs with dirs := p :: fs.dirs }

/-- Effect of `os.RemoveAll(p)` with the error dropped. -/
def removeAll (fs : FS) (p : String) : FS :=
  { fs with dirs := fs.dirs.filter (fun q => q ≠ p) }

/-- Successful `os.Rename(oldpath, newpath)`. -/
def renamed (fs : FS) (oldpath newpath : String) : FS :=
  { fs with dirs := newpath :: fs.dirs.filter (fun q => q ≠ oldpath ∧ q ≠ newpath) }

end FS

/-- What a call of a cloner leaves behind. -/
structure Result (ρ : Type) where
  /-- The value of `*repoSpec` after the call. -/
  spec : RepoSpec ρ
  /-- The returned error, `none` for `nil`. -/
  err : Option GoError
  fs : FS
  /-- The operations issued, in order. -/
  ops : List Op

/-- Go `type Cloner func(repoSpec *RepoSpec) error`. -/
abbrev Cloner (ρ : Type) := RepoSpec ρ → FS → Result ρ

/-! ## cloner.go -/

/-- Lines 22-24 and 130-132: an empty `Ref` becomes `"master"`. -/
def defaultRef {ρ : Type} (repoSpec : RepoSpec ρ) : RepoSpec ρ :=
  if repoSpec.Ref = "" then { repoSpec with Ref := "master" } else repoSpec

/-- Line 38: `repoFolderName`, computed from the spec after the defaulting of
`Ref`. -/
def repoFolderName {ρ : Type} (repoSpec : RepoSpec ρ) : String :=
  ReplaceAll (Sprintf3 repoSpec.Host repoSpec.OrgRepo repoSpec.Ref) "/" "_"

/-- Lines 51-64: the clone command. -/
def cloneCmd {ρ : Type} (L : Lib ρ) (gitProgram : String) (repoSpec : RepoSpec ρ)
    (tmpDir : String) : Cmd :=
  { Command gitProgram
      ["clone", "--depth", "1", "-b", repoSpec.Ref, "--single-branch",
        L.CloneSpec repoSpec, "."] with dir := tmpDir }

/-- Function `ClonerUsingGitExec` (cloner.go, lines 21-83). -/
def ClonerUsingGitExec {ρ : Type} (L : Lib ρ) (E : Env) (repoSpec : RepoSpec ρ)
    (fs : FS) : Result ρ :=
  let repoSpec := defaultRef repoSpec
  match E.lookPath "git" with
  | (_, some err) =>
    ⟨repoSpec, some (Wrap err "no 'git' program on path"), fs, [Op.lookPath "git"]⟩
  | (gitProgram, none) =>
  match E.gitRootDir with
  | (_, some err) => ⟨repoSpec, some err, fs, [Op.lookPath "git", Op.gitRootDir]⟩
  | (gitRootDir, none) =>
  let fs := fs.mkdir gitRootDir
  let repoSpec := { repoSpec with Dir := L.Join gitRootDir (repoFolderName repoSpec) }
  let ops := [Op.lookPath "git", Op.gitRootDir, Op.mkdir gitRootDir, Op.stat repoSpec.Dir]
  match fs.stat repoSpec.Dir with
  | StatResult.notExist =>
    match E.newTmpDir with
    | (_, some err) => ⟨repoSpec, some err, fs, ops ++ [Op.newTmpDir]⟩
    | (tmpDir, none) =>
    let fs := fs.addDir tmpDir
    let cmd := cloneCmd L gitProgram repoSpec tmpDir
    match E.run cmd with
    | some err =>
      ⟨repoSpec, some (Wrap err ("trouble adding remote " ++ L.CloneSpec repoSpec)), fs,
        ops ++ [Op.newTmpDir, Op.run cmd]⟩
    | none =>
    match E.rename tmpDir repoSpec.Dir with
    | some _ =>
      ⟨repoSpec, none, fs.removeAll tmpDir,
        ops ++ [Op.newTmpDir, Op.run cmd, Op.rename tmpDir repoSpec.Dir, Op.removeAll tmpDir]⟩
    | none =>
      ⟨repoSpec, none, fs.renamed tmpDir repoSpec.Dir,
        ops ++ [Op.newTmpDir, Op.run cmd, Op.rename tmpDir repoSpec.Dir]⟩
  | _ => ⟨repoSpec, none, fs, ops⟩

/-- Lines 97-100: `git init <dir>`; `cmd.Dir` is not set. -/
def initCmd (gitProgram dir : String) : Cmd := Command gitProgram ["init", dir]

/-- Lines 113-121: `git remote add origin <cloneSpec>`. -/
def remoteAddCmd (gitProgram cloneSpec dir : String) : Cmd :=
  { Command gitProgram ["remote", "add", "origin", cloneSpec] with dir := dir }

/-- Lines 133-141: `git fetch --depth=1 origin <ref>`. -/
def fetchCmd (gitProgram ref dir : String) : Cmd :=
  { Command gitProgram ["fetch", "--depth=1", "origin", ref] with dir := dir }

/-- Lines 144-151: `git pull origin master`. -/
def pullCmd (gitProgram dir : String) : Cmd :=
  { Command gitProgram ["pull", "origin", "master"] with dir := dir }

/-- Lines 159-160: `git checkout <ref>`. -/
def checkoutCmd (gitProgram ref dir : String) : Cmd :=
  { Command gitProgram ["checkout", ref] with dir := dir }

/-- Lines 168-175: `git reset --hard FETCH_HEAD`. -/
def resetCmd (gitProgram dir : String) : Cmd :=
  { Command gitProgram ["reset", "--hard", "FETCH_HEAD"] with dir := dir }

/-- Lines 183-190: `git submodule update --init --recursive`. -/
def submoduleCmd (gitProgram dir : String) : Cmd :=
  { Command gitProgram ["submodule", "update", "--init", "--recursive"] with dir := dir }

/-- Lines 168-196 of `ClonerUsingGitExecV1`: hard reset, then submodules.
`ops` are the operations issued so far. -/
def v1Finish {ρ : Type} (E : Env) (gitProgram : String) (repoSpec : RepoSpec ρ) (fs : FS)
    (ops : List Op) : Result ρ :=
  let reset := resetCmd gitProgram repoSpec.Dir
  match E.run reset with
  | some err =>
    ⟨repoSpec,
      some (Wrap err ("trouble hard resetting empty repository to " ++ repoSpec.Ref)), fs,
      ops ++ [Op.run reset]⟩
  | none =>
  let submodule := submoduleCmd gitProgram repoSpec.Dir
  match E.run submodule with
  | some err =>
    ⟨repoSpec, some (Wrap err ("trouble fetching submodules for " ++ repoSpec.Ref)), fs,
      ops ++ [Op.run reset, Op.run submodule]⟩
  | none => ⟨repoSpec, none, fs, ops ++ [Op.run reset, Op.run submodule]⟩

/-- Function `ClonerUsingGitExecV1` (cloner.go, lines 88-197). -/
def ClonerUsingGitExecV1 {ρ : Type} (L : Lib ρ) (E : Env) (repoSpec : RepoSpec ρ)
    (fs : FS) : Result ρ :=
  match E.lookPath "git" with
  | (_, some err) =>
    ⟨repoSpec, some (Wrap err "no 'git' program on path"), fs, [Op.lookPath "git"]⟩
  | (gitProgram, none) =>
  match E.newTmpDir with
  | (d, some err) =>
    ⟨{ repoSpec with Dir := d }, some err, fs, [Op.lookPath "git", Op.newTmpDir]⟩
  | (d, none) =>
  let repoSpec := { repoSpec with Dir := d }
  let fs := fs.addDir d
  let ops := [Op.lookPath "git", Op.newTmpDir]
  let init := initCmd gitProgram repoSpec.Dir
  match E.run init with
  | some err =>
    ⟨repoSpec,
      some (Wrap err ("trouble initializing empty git repo in " ++ repoSpec.Dir)), fs,
      ops ++ [Op.run init]⟩
  | none =>
  let remote := remoteAddCmd gitProgram (L.CloneSpec repoSpec) repoSpec.Dir
  match E.run remote with
  | some err =>
    ⟨repoSpec, some (Wrap err ("trouble adding remote " ++ L.CloneSpec repoSpec)), fs,
      ops ++ [Op.run init, Op.run remote]⟩
  | none =>
  let repoSpec := defaultRef repoSpec
  let fetch := fetchCmd gitProgram repoSpec.Ref repoSpec.Dir
  match E.run fetch with
  | some _ =>
    let pull := pullCmd gitProgram repoSpec.Dir
    match E.run pull with
    | some err =>
      ⟨repoSpec, some (Wrap err ("trouble pulling " ++ repoSpec.OrgRepo)), fs,
        ops ++ [Op.run init, Op.run remote, Op.run fetch, Op.run pull]⟩
    | none =>
    let repoSpec := defaultRef repoSpec
    let checkout := checkoutCmd gitProgram repoSpec.Ref repoSpec.Dir
    match E.run checkout with
    | some err =>
      ⟨repoSpec, some (Wrap err ("trouble checking out href " ++ repoSpec.Ref)), fs,
        ops ++ [Op.run init, Op.run remote, Op.run fetch, Op.run pull, Op.run checkout]⟩
    | none =>
      v1Finish E gitProgram repoSpec fs
        (ops ++ [Op.run init, Op.run remote, Op.run fetch, Op.run pull, Op.run checkout])
  | none =>
    v1Finish E gitProgram repoSpec fs (ops ++ [Op.run init, Op.run remote, Op.run fetch])

/-- Function `DoNothingCloner` (cloner.go, lines 203-208). -/
def DoNothingCloner {ρ : Type} (dir : String) : Cloner ρ :=
  fun rs fs => ⟨{ rs with Dir := dir }, none, fs, []⟩

/-! ## gitrunner.go -/

/-- The struct `gitRunner`; `duration` in nanoseconds, as `time.Duration`. -/
structure gitRunner where
  gitProgram : String
  duration : Nat
  dir : String

/-- What `(*exec.Cmd).String()` prints for a command whose program name holds
a path separator: `exec.Command` uses such a name as it is, and the command
line is the name followed by the arguments, separated by blanks. -/
def plainCmdLine (c : Cmd) : String := String.intercalate " " (c.path :: c.args)

/-- Behaviour of a subprocess started by `gitRunner.run`: what
`cmd.CombinedOutput()` returns and how long it takes. -/
structure ProcEnv where
  /-- Result of `cmd.String()`: the command line, with the program as
  `exec.Command` resolved it. -/
  cmdString : Cmd → String
  combinedOutput : Cmd → String × Option GoError
  elapsed : Cmd → Nat

/-- Modelled from the spec: `utils.TimedCall(description, d, fn)`, whose file
is not part of this development.  Section 4.4: the command runs apart from the
timer and whichever completes first determines the outcome; on timeout the
call fails with a timeout-specific error, on normal completion it returns the
error of `fn`.  `took` is the time `fn` needs; `fn` acts on the variables it
captures (state `σ`), which it has not written when the timer fires first. -/
def TimedCall {σ : Type} (description : String) (d : Nat) (took : Nat)
    (fn : σ → σ × Option GoError) (s : σ) : σ × Option GoError :=
  if took ≤ d then fn s else (s, some (GoError.timeOut d description))

/-- Method `gitRunner.run` (gitrunner.go, lines 41-59).  The closure captures
`output`, which is the state threaded through `TimedCall`. -/
def gitRunner.run (r : gitRunner) (P : ProcEnv) (args : List String) :
    String × Option GoError :=
  let output := ""
  let cmd := { Command r.gitProgram args with dir := r.dir }
  let (output, err) :=
    TimedCall (P.cmdString cmd) r.duration (P.elapsed cmd)
      (fun output =>
        match P.combinedOutput cmd with
        | (_, some err) =>
          (output, some (Wrap err ("git cmd = '" ++ P.cmdString cmd ++ "'")))
        | (o, none) => (o, none))
      output
  (output, err)

/-- Commands among a list of operations. -/
def cmds : List Op → List Cmd
  | [] => []
  | Op.run c :: ops => c :: cmds ops
  | _ :: ops => cmds ops

/-! ## Vocabulary of the statements -/

/-- One character with `/` replaced by `_`. -/
def slashToUnderscore (c : Char) : Char := if c = '/' then '_' else c

/-- A string with every `/` replaced by `_`. -/
def underscored (s : String) : String := String.mk (s.data.map slashToUnderscore)

/-- The ref a spec resolves to: `"master"` for the empty ref. -/
def resolvedRef (ref : String) : String := if ref = "" then "master" else ref

/-- Number of `git clone` commands among a list of operations. -/
def cloneCount (ops : List Op) : Nat :=
  (cmds ops).countP (fun c => c.args.head? = some "clone")

/-- The fetch step of the full cloner as the specification words it:
`fetch --depth=1 origin <ref>`, the ref being `master` for the empty ref, run by
`git` in the directory `tmp`. -/
def v1Fetch {ρ : Type} (git tmp : String) (rs : RepoSpec ρ) : Cmd :=
  ⟨git, ["fetch", "--depth=1", "origin", resolvedRef rs.Ref], tmp⟩

/-- The steps of the full cloner as the specification lists them, argument by
argument: init, remote add origin with the clone spec, fetch, then pull origin
master and checkout of the ref only when the fetch failed, then reset --hard
FETCH_HEAD and submodule update --init --recursive. -/
def v1Steps {ρ : Type} (L : Lib ρ) (git tmp : String) (rs : RepoSpec ρ)
    (fetchFailed : Bool) : List Cmd :=
  [⟨git, ["init", tmp], ""⟩,
      ⟨git, ["remote", "add", "origin", L.CloneSpec { rs with Dir := tmp }], tmp⟩,
      ⟨git, ["fetch", "--depth=1", "origin", resolvedRef rs.Ref], tmp⟩]
    ++ (if fetchFailed then
          [⟨git, ["pull", "origin", "master"], tmp⟩,
            ⟨git, ["checkout", resolvedRef rs.Ref], tmp⟩]
        else [])
    ++ [⟨git, ["reset", "--hard", "FETCH_HEAD"], tmp⟩,
        ⟨git, ["submodule", "update", "--init", "--recursive"], tmp⟩]

/-- The initial segment of a list of commands that ends at the first command
satisfying `stop`, that command included; the whole list when there is none. -/
def uptoFirst (stop : Cmd → Bool) : List Cmd → List Cmd
  | [] => []
  | c :: cs => if stop c then [c] else c :: uptoFirst stop cs

/-- The spec as `ClonerUsingGitExec` leaves it once both lookups have
succeeded: `Ref` defaulted, `Dir` set to the cache directory under `root`. -/
def cacheSpec {ρ : Type} (L : Lib ρ) (root : String) (rs : RepoSpec ρ) : RepoSpec ρ :=
  { defaultRef rs with Dir := L.Join root (repoFolderName (defaultRef rs)) }

/-- The operations every call issues once both lookups have succeeded. -/
def headOps {ρ : Type} (L : Lib ρ) (root : String) (rs : RepoSpec ρ) : List Op :=
  [Op.lookPath "git", Op.gitRootDir, Op.mkdir root, Op.stat (cacheSpec L root rs).Dir]

/-! ## Example inputs -/

/-- A `Lib` with an https clone spec and `/`-separated paths. -/
def exLib : Lib Unit :=
  ⟨fun rs => "https://" ++ rs.Host ++ "/" ++ rs.OrgRepo ++ ".git", fun d p => d ++ "/" ++ p⟩

/-- The spec of the end-to-end scenario: `github.com`, `example/repo`, no ref. -/
def exSpec : RepoSpec Unit := ⟨"github.com", "example/repo", "", "", ()⟩

/-- An empty file system. -/
def exFS : FS := ⟨[], []⟩

/-- A world in which everything succeeds. -/
def exEnv : Env :=
  ⟨fun _ => ("/usr/bin/git", none), ("/home/u/.kustomize", none), ("/tmp/kustomize-1", none),
    fun _ => none, fun _ _ => none⟩

/-- A world in which git is found but every git command fails. -/
def exEnvCloneFails : Env :=
  { exEnv with run := fun _ => some (GoError.ext "exit status 128") }

/-- A world in which everything succeeds except the rename. -/
def exEnvRenameFails : Env :=
  { exEnv with rename := fun _ _ => some (GoError.ext "invalid cross-device link") }

/-- A world in which git is not on the path; no git command would fail. -/
def exEnvNoGit : Env :=
  { exEnv with
    lookPath := fun _ => ("", some (GoError.ext "executable file not found in $PATH")) }

/-- A world in which everything succeeds except `git fetch`. -/
def exEnvFetchFails : Env :=
  { exEnv with
    run := fun c => if c.args.head? = some "fetch" then some (GoError.ext "exit status 128")
      else none }

/-- A runner with git given by its full path and a 27 second timeout. -/
def exRunner : gitRunner := ⟨"/usr/bin/git", 27000000000, "/tmp/kustomize-1"⟩

/-- A `git fetch` that exits with status 128 after one second, having printed
an error message. -/
def exProcFails : ProcEnv :=
  ⟨plainCmdLine,
    fun _ => ("fatal: repository not found\n", some (GoError.ext "exit status 128")),
    fun _ => 1000000000⟩

/-- A `git fetch` that would succeed after 60 seconds. -/
def exProcSlow : ProcEnv := ⟨plainCmdLine, fun _ => ("", none), fun _ => 60000000000⟩

/-! ## Lemmas -/

theorem FS.not_mem_of_stat_notExist (fs : FS) (p : String)
    (h : fs.stat p = StatResult.notExist) : p ∉ fs.dirs := by
  unfold FS.stat at h
  split at h
  · cases h
  · split at h
    · cases h
    · assumption

theorem replaceAllAux_slash (l : List Char) :
    replaceAllAux ['/'] ['_'] 0 l = l.map slashToUnderscore := by
  induction l with
  | nil => rfl
  | cons c cs ih =>
    by_cases hc : c = '/'
    · simp [replaceAllAux, slashToUnderscore, hc, ih, List.isPrefixOf]
    · have hc2 : ¬ '/' = c := fun h => hc h.symm
      simp [replaceAllAux, slashToUnderscore, hc, hc2, ih, List.isPrefixOf]

theorem ReplaceAll_slash (s : String) : ReplaceAll s "/" "_" = underscored s := by
  have h : ("/" : String).data = ['/'] := rfl
  have h2 : ("_" : String).data = ['_'] := rfl
  simp [ReplaceAll, underscored, h, h2, replaceAllAux_slash]

theorem repoFolderName_defaultRef {ρ : Type} (rs : RepoSpec ρ) :
    repoFolderName (defaultRef rs)
      = underscored (rs.Host ++ "_" ++ rs.OrgRepo ++ "_" ++ resolvedRef rs.Ref) := by
  unfold repoFolderName defaultRef resolvedRef Sprintf3
  rw [ReplaceAll_slash]
  split <;> rfl

theorem ClonerUsingGitExec_spec_Dir {ρ : Type} (L : Lib ρ) (E : Env) (rs : RepoSpec ρ) (fs : FS)
    (gitProgram root : String) (hgit : E.lookPath "git" = (gitProgram, none))
    (hroot : E.gitRootDir = (root, none)) :
    (ClonerUsingGitExec L E rs fs).spec.Dir = L.Join root (repoFolderName (defaultRef rs)) := by
  unfold ClonerUsingGitExec
  simp only [hgit, hroot]
  split
  · split
    · rfl
    · split
      · rfl
      · split <;> rfl
  · rfl

theorem FS.stat_ne_notExist_iff (fs : FS) (p : String) :
    fs.stat p ≠ StatResult.notExist ↔ p ∈ fs.denied ∨ p ∈ fs.dirs := by
  unfold FS.stat
  by_cases h₁ : p ∈ fs.denied
  · simp [h₁]
  · by_cases h₂ : p ∈ fs.dirs
    · simp [h₁, h₂]
    · simp [h₁, h₂]

theorem FS.stat_mkdir_ne_notExist (fs : FS) (root p : String)
    (h : fs.stat p ≠ StatResult.notExist) : (fs.mkdir root).stat p ≠ StatResult.notExist := by
  rw [FS.stat_ne_notExist_iff] at h ⊢
  unfold FS.mkdir
  split
  · exact h
  · rcases h with h | h
    · exact Or.inl h
    · exact Or.inr (List.mem_cons_of_mem _ h)

theorem ClonerUsingGitExec_noGit {ρ : Type} (L : Lib ρ) (E : Env) (rs : RepoSpec ρ) (fs : FS)
    (g : String) (e : GoError) (hgit : E.lookPath "git" = (g, some e)) :
    ClonerUsingGitExec L E rs fs
      = ⟨defaultRef rs, some (Wrap e "no 'git' program on path"), fs, [Op.lookPath "git"]⟩ := by
  simp only [ClonerUsingGitExec, hgit]

theorem ClonerUsingGitExec_noRoot {ρ : Type} (L : Lib ρ) (E : Env) (rs : RepoSpec ρ) (fs : FS)
    (g root : String) (e : GoError) (hgit : E.lookPath "git" = (g, none))
    (hroot : E.gitRootDir = (root, some e)) :
    ClonerUsingGitExec L E rs fs
      = ⟨defaultRef rs, some e, fs, [Op.lookPath "git", Op.gitRootDir]⟩ := by
  simp only [ClonerUsingGitExec, hgit, hroot]

theorem ClonerUsingGitExec_hit {ρ : Type} (L : Lib ρ) (E : Env) (rs : RepoSpec ρ) (fs : FS)
    (g root : String) (hgit : E.lookPath "git" = (g, none))
    (hroot : E.gitRootDir = (root, none))
    (hstat : (fs.mkdir root).stat (cacheSpec L root rs).Dir ≠ StatResult.notExist) :
    ClonerUsingGitExec L E rs fs
      = ⟨cacheSpec L root rs, none, fs.mkdir root, headOps L root rs⟩ := by
  simp only [ClonerUsingGitExec, hgit, hroot]
  simp only [cacheSpec] at hstat
  split
  · rename_i h
    exact absurd h hstat
  · rfl

theorem ClonerUsingGitExec_noTmp {ρ : Type} (L : Lib ρ) (E : Env) (rs : RepoSpec ρ) (fs : FS)
    (g root t : String) (e : GoError) (hgit : E.lookPath "git" = (g, none))
    (hroot : E.gitRootDir = (root, none))
    (hstat : (fs.mkdir root).stat (cacheSpec L root rs).Dir = StatResult.notExist)
    (htmp : E.newTmpDir = (t, some e)) :
    ClonerUsingGitExec L E rs fs
      = ⟨cacheSpec L root rs, some e, fs.mkdir root, headOps L root rs ++ [Op.newTmpDir]⟩ := by
  simp only [cacheSpec] at hstat
  simp only [ClonerUsingGitExec, hgit, hroot, hstat, htmp]
  rfl

theorem ClonerUsingGitExec_cloneFails {ρ : Type} (L : Lib ρ) (E : Env) (rs : RepoSpec ρ)
    (fs : FS) (g root t : String) (e : GoError) (hgit : E.lookPath "git" = (g, none))
    (hroot : E.gitRootDir = (root, none))
    (hstat : (fs.mkdir root).stat (cacheSpec L root rs).Dir = StatResult.notExist)
    (htmp : E.newTmpDir = (t, none))
    (hrun : E.run (cloneCmd L g (cacheSpec L root rs) t) = some e) :
    ClonerUsingGitExec L E rs fs
      = ⟨cacheSpec L root rs,
          some (Wrap e ("trouble adding remote " ++ L.CloneSpec (cacheSpec L root rs))),
          (fs.mkdir root).addDir t,
          headOps L root rs ++ [Op.newTmpDir, Op.run (cloneCmd L g (cacheSpec L root rs) t)]⟩ := by
  simp only [cacheSpec] at hstat hrun
  simp only [ClonerUsingGitExec, hgit, hroot, hstat, htmp, hrun]
  rfl

theorem ClonerUsingGitExec_renameFails {ρ : Type} (L : Lib ρ) (E : Env) (rs : RepoSpec ρ)
    (fs : FS) (g root t : String) (e : GoError) (hgit : E.lookPath "git" = (g, none))
    (hroot : E.gitRootDir = (root, none))
    (hstat : (fs.mkdir root).stat (cacheSpec L root rs).Dir = StatResult.notExist)
    (htmp : E.newTmpDir = (t, none))
    (hrun : E.run (cloneCmd L g (cacheSpec L root rs) t) = none)
    (hmv : E.rename t (cacheSpec L root rs).Dir = some e) :
    ClonerUsingGitExec L E rs fs
      = ⟨cacheSpec L root rs, none, ((fs.mkdir root).addDir t).removeAll t,
          headOps L root rs ++ [Op.newTmpDir, Op.run (cloneCmd L g (cacheSpec L root rs) t),
            Op.rename t (cacheSpec L root rs).Dir, Op.removeAll t]⟩ := by
  simp only [cacheSpec] at hstat hrun hmv
  simp only [ClonerUsingGitExec, hgit, hroot, hstat, htmp, hrun, hmv]
  rfl

theorem ClonerUsingGitExec_cloned {ρ : Type} (L : Lib ρ) (E : Env) (rs : RepoSpec ρ)
    (fs : FS) (g root t : String) (hgit : E.lookPath "git" = (g, none))
    (hroot : E.gitRootDir = (root, none))
    (hstat : (fs.mkdir root).stat (cacheSpec L root rs).Dir = StatResult.notExist)
    (htmp : E.newTmpDir = (t, none))
    (hrun : E.run (cloneCmd L g (cacheSpec L root rs) t) = none)
    (hmv : E.rename t (cacheSpec L root rs).Dir = none) :
    ClonerUsingGitExec L E rs fs
      = ⟨cacheSpec L root rs, none,
          ((fs.mkdir root).addDir t).renamed t (cacheSpec L root rs).Dir,
          headOps L root rs ++ [Op.newTmpDir, Op.run (cloneCmd L g (cacheSpec L root rs) t),
            Op.rename t (cacheSpec L root rs).Dir]⟩ := by
  simp only [cacheSpec] at hstat hrun hmv
  simp only [ClonerUsingGitExec, hgit, hroot, hstat, htmp, hrun, hmv]
  rfl

theorem defaultRef_Ref {ρ : Type} (rs : RepoSpec ρ) :
    (defaultRef rs).Ref = resolvedRef rs.Ref := by
  unfold defaultRef resolvedRef
  split <;> rfl

theorem defaultRef_Dir {ρ : Type} (rs : RepoSpec ρ) : (defaultRef rs).Dir = rs.Dir := by
  unfold defaultRef
  split <;> rfl

theorem defaultRef_idem {ρ : Type} (rs : RepoSpec ρ) :
    defaultRef (defaultRef rs) = defaultRef rs := by
  unfold defaultRef
  split
  · simp
  · rename_i h
    simp [h]

/-! ## Theorems -/

/-- C1: once the git lookup and the root-directory lookup have succeeded,
`ClonerUsingGitExec` sets `Dir` to the root joined with the name made of
`Host`, `_`, `OrgRepo`, `_` and the ref (`"master"` for the empty ref), every `/`
replaced by `_`; for `github.com`, `example/repo` and the empty ref, that name
is `github.com_example_repo_master`. -/
theorem ClonerUsingGitExec_dir {ρ : Type} (L : Lib ρ) (E : Env) (rs : RepoSpec ρ) (fs : FS)
    (gitProgram root : String) (hgit : E.lookPath "git" = (gitProgram, none))
    (hroot : E.gitRootDir = (root, none)) :
    (ClonerUsingGitExec L E rs fs).spec.Dir
        = L.Join root
            (underscored
              (rs.Host ++ "_" ++ rs.OrgRepo ++ "_" ++ (if rs.Ref = "" then "master" else rs.Ref)))
      ∧ (rs.Host = "github.com" → rs.OrgRepo = "example/repo" → rs.Ref = "" →
          (ClonerUsingGitExec L E rs fs).spec.Dir
            = L.Join root "github.com_example_repo_master") := by
  have h := ClonerUsingGitExec_spec_Dir L E rs fs gitProgram root hgit hroot
  rw [repoFolderName_defaultRef] at h
  refine ⟨h, ?_⟩
  intro hH hO hR
  rw [h, hH, hO, hR]
  rfl

/-- Witness of C1: the end-to-end scenario, in a world where everything
succeeds. -/
theorem ClonerUsingGitExec_dir_witness :
    exEnv.lookPath "git" = ("/usr/bin/git", none)
      ∧ exEnv.gitRootDir = ("/home/u/.kustomize", none)
      ∧ (ClonerUsingGitExec exLib exEnv exSpec exFS).spec.Dir
          = "/home/u/.kustomize/github.com_example_repo_master" :=
  ⟨rfl, rfl,
    (ClonerUsingGitExec_dir exLib exEnv exSpec exFS "/usr/bin/git" "/home/u/.kustomize" rfl
      rfl).2 rfl rfl rfl⟩

/-- C3, as stated, fails: the refs `""` and `"master"` differ and get the same
directory name, and so do `"release/v1"` and `"release_v1"`. -/
theorem repoFolderName_refs_collide :
    ("" : String) ≠ "master"
      ∧ repoFolderName (defaultRef (⟨"github.com", "example/repo", "", "", ()⟩ : RepoSpec Unit))
          = repoFolderName (defaultRef ⟨"github.com", "example/repo", "master", "", ()⟩)
      ∧ ("release/v1" : String) ≠ "release_v1"
      ∧ repoFolderName
            (defaultRef (⟨"github.com", "example/repo", "release/v1", "", ()⟩ : RepoSpec Unit))
          = repoFolderName (defaultRef ⟨"github.com", "example/repo", "release_v1", "", ()⟩) := by
  decide

/-- C3, amended: the directory name depends on `Host`, `OrgRepo` and `Ref` only;
for the same `Host` and `OrgRepo`, two refs get the same name exactly when they
agree once the empty ref is read as `"master"` and every `/` as `_`, so that
two different refs that are non-empty and free of `/` get different names. -/
theorem repoFolderName_refs {ρ : Type} (rs₁ rs₂ : RepoSpec ρ) (hH : rs₁.Host = rs₂.Host)
    (hO : rs₁.OrgRepo = rs₂.OrgRepo) :
    (rs₁.Ref = rs₂.Ref → repoFolderName (defaultRef rs₁) = repoFolderName (defaultRef rs₂))
      ∧ (repoFolderName (defaultRef rs₁) = repoFolderName (defaultRef rs₂)
          ↔ underscored (resolvedRef rs₁.Ref) = underscored (resolvedRef rs₂.Ref))
      ∧ (rs₁.Ref ≠ "" → rs₂.Ref ≠ "" → '/' ∉ rs₁.Ref.data → '/' ∉ rs₂.Ref.data →
          rs₁.Ref ≠ rs₂.Ref →
          repoFolderName (defaultRef rs₁) ≠ repoFolderName (defaultRef rs₂)) := by
  have key : repoFolderName (defaultRef rs₁) = repoFolderName (defaultRef rs₂)
      ↔ underscored (resolvedRef rs₁.Ref) = underscored (resolvedRef rs₂.Ref) := by
    rw [repoFolderName_defaultRef, repoFolderName_defaultRef, hH, hO]
    simp only [underscored, String.ext_iff, String.data_append, List.map_append]
    exact ⟨fun h => List.append_cancel_left h, fun h => by rw [h]⟩
  refine ⟨?_, key, ?_⟩
  · intro hR
    rw [key, hR]
  · intro h₁ h₂ s₁ s₂ hne heq
    rw [key] at heq
    have id_of : ∀ l : List Char, '/' ∉ l → l.map slashToUnderscore = l := by
      intro l hl
      induction l with
      | nil => rfl
      | cons c cs ih =>
        have hc : c ≠ '/' := fun h => hl (by simp [h])
        have hcs : '/' ∉ cs := fun h => hl (List.mem_cons_of_mem _ h)
        simp [slashToUnderscore, hc, ih hcs]
    simp only [resolvedRef, h₁, h₂, if_false, underscored, String.ext_iff] at heq
    rw [id_of _ s₁, id_of _ s₂] at heq
    exact hne (String.ext heq)

/-- Witness of the amended C3: `v1` and `v2` on the same repository get
different directory names. -/
theorem repoFolderName_refs_witness :
    repoFolderName (defaultRef (⟨"github.com", "example/repo", "v1", "", ()⟩ : RepoSpec Unit))
      ≠ repoFolderName (defaultRef ⟨"github.com", "example/repo", "v2", "", ()⟩) :=
  (repoFolderName_refs (⟨"github.com", "example/repo", "v1", "", ()⟩ : RepoSpec Unit)
    ⟨"github.com", "example/repo", "v2", "", ()⟩ rfl rfl).2.2
    (by decide) (by decide) (by decide) (by decide) (by decide)

/-- C10: the cloner made by `DoNothingCloner d` returns no error, sets `Dir` to
`d`, leaves `Host`, `OrgRepo`, `Ref` and the other fields as they were, issues
no operation and leaves the file system as it was. -/
theorem DoNothingCloner_frame {ρ : Type} (d : String) (rs : RepoSpec ρ) (fs : FS) :
    (DoNothingCloner d rs fs).err = none
      ∧ (DoNothingCloner d rs fs).spec.Dir = d
      ∧ (DoNothingCloner d rs fs).spec.Host = rs.Host
      ∧ (DoNothingCloner d rs fs).spec.OrgRepo = rs.OrgRepo
      ∧ (DoNothingCloner d rs fs).spec.Ref = rs.Ref
      ∧ (DoNothingCloner d rs fs).spec.rest = rs.rest
      ∧ (DoNothingCloner d rs fs).ops = []
      ∧ (DoNothingCloner d rs fs).fs = fs :=
  ⟨rfl, rfl, rfl, rfl, rfl, rfl, rfl, rfl⟩

/-- C7: when the rename of the temporary directory to the cache path has been
issued (which happens only after a successful clone) and has failed, the call
has issued the removal of the temporary directory, and on return neither the
temporary directory nor the cache directory exists. -/
theorem ClonerUsingGitExec_rename_failure_cleanup {ρ : Type} (L : Lib ρ) (E : Env)
    (rs : RepoSpec ρ) (fs : FS) (tmp target : String)
    (hmv : Op.rename tmp target ∈ (ClonerUsingGitExec L E rs fs).ops)
    (hfail : E.rename tmp target ≠ none) :
    target = (ClonerUsingGitExec L E rs fs).spec.Dir
      ∧ (∃ c, E.run c = none
          ∧ [Op.run c, Op.rename tmp target, Op.removeAll tmp]
              <:+ (ClonerUsingGitExec L E rs fs).ops)
      ∧ tmp ∉ (ClonerUsingGitExec L E rs fs).fs.dirs
      ∧ target ∉ (ClonerUsingGitExec L E rs fs).fs.dirs := by
  rcases hg : E.lookPath "git" with ⟨g, _ | e⟩
  · rcases hr : E.gitRootDir with ⟨root, _ | e⟩
    · by_cases hs : (fs.mkdir root).stat (cacheSpec L root rs).Dir = StatResult.notExist
      · rcases ht : E.newTmpDir with ⟨t, _ | e⟩
        · rcases hrun : E.run (cloneCmd L g (cacheSpec L root rs) t) with _ | e
          · rcases hm : E.rename t (cacheSpec L root rs).Dir with _ | e
            · rw [ClonerUsingGitExec_cloned L E rs fs g root t hg hr hs ht hrun hm] at hmv
              simp [headOps] at hmv
              obtain ⟨rfl, rfl⟩ := hmv
              exact absurd hm hfail
            · rw [ClonerUsingGitExec_renameFails L E rs fs g root t e hg hr hs ht hrun hm] at hmv ⊢
              simp [headOps] at hmv
              obtain ⟨rfl, rfl⟩ := hmv
              have habs := FS.not_mem_of_stat_notExist _ _ hs
              refine ⟨rfl, ⟨_, hrun, ?_⟩, by simp [FS.removeAll], ?_⟩
              · exact ⟨headOps L root rs ++ [Op.newTmpDir], by simp⟩
              simp only [FS.removeAll, FS.addDir]
              split <;> simp_all
          · rw [ClonerUsingGitExec_cloneFails L E rs fs g root t e hg hr hs ht hrun] at hmv
            simp [headOps] at hmv
        · rw [ClonerUsingGitExec_noTmp L E rs fs g root t e hg hr hs ht] at hmv
          simp [headOps] at hmv
      · rw [ClonerUsingGitExec_hit L E rs fs g root hg hr hs] at hmv
        simp [headOps] at hmv
    · rw [ClonerUsingGitExec_noRoot L E rs fs g root e hg hr] at hmv
      simp at hmv
  · rw [ClonerUsingGitExec_noGit L E rs fs g e hg] at hmv
    simp at hmv

/-- Witness of C7: the end-to-end scenario in a world where only the rename
fails. -/
theorem ClonerUsingGitExec_rename_failure_cleanup_witness :
    "/tmp/kustomize-1" ∉ (ClonerUsingGitExec exLib exEnvRenameFails exSpec exFS).fs.dirs
      ∧ "/home/u/.kustomize/github.com_example_repo_master"
          ∉ (ClonerUsingGitExec exLib exEnvRenameFails exSpec exFS).fs.dirs :=
  (ClonerUsingGitExec_rename_failure_cleanup exLib exEnvRenameFails exSpec exFS
    "/tmp/kustomize-1" "/home/u/.kustomize/github.com_example_repo_master"
    (by decide) (by decide)).2.2

/-- C4 fails on the code: with git found, the cache directory absent, the clone
successful and the rename failing, `ClonerUsingGitExec` issues the rename and
returns `nil`. -/
theorem ClonerUsingGitExec_rename_failure_returns_nil :
    exEnvRenameFails.run
        (cloneCmd exLib "/usr/bin/git" (cacheSpec exLib "/home/u/.kustomize" exSpec)
          "/tmp/kustomize-1") = none
      ∧ Op.rename "/tmp/kustomize-1" "/home/u/.kustomize/github.com_example_repo_master"
          ∈ (ClonerUsingGitExec exLib exEnvRenameFails exSpec exFS).ops
      ∧ exEnvRenameFails.rename "/tmp/kustomize-1"
          "/home/u/.kustomize/github.com_example_repo_master"
          = some (GoError.ext "invalid cross-device link")
      ∧ (ClonerUsingGitExec exLib exEnvRenameFails exSpec exFS).err = none
      ∧ (ClonerUsingGitExec exLib exEnvRenameFails exSpec exFS).spec.Dir
          ∉ (ClonerUsingGitExec exLib exEnvRenameFails exSpec exFS).fs.dirs := by
  decide

/-- C6: with git and the root directory resolved and the cache directory
present, `ClonerUsingGitExec` issues the two lookups, the mkdir of the root and
the stat of the cache directory and nothing else (no command, no temporary
directory, no rename, no removal), sets `Dir` to the cache directory and
returns `nil`. -/
theorem ClonerUsingGitExec_cache_hit {ρ : Type} (L : Lib ρ) (E : Env) (rs : RepoSpec ρ)
    (fs : FS) (gitProgram root : String) (hgit : E.lookPath "git" = (gitProgram, none))
    (hroot : E.gitRootDir = (root, none))
    (hdir : L.Join root (repoFolderName (defaultRef rs)) ∈ fs.dirs) :
    (ClonerUsingGitExec L E rs fs).ops
        = [Op.lookPath "git", Op.gitRootDir, Op.mkdir root,
            Op.stat (L.Join root (repoFolderName (defaultRef rs)))]
      ∧ cmds (ClonerUsingGitExec L E rs fs).ops = []
      ∧ (ClonerUsingGitExec L E rs fs).spec.Dir = L.Join root (repoFolderName (defaultRef rs))
      ∧ (ClonerUsingGitExec L E rs fs).err = none
      ∧ (ClonerUsingGitExec L E rs fs).fs = fs.mkdir root := by
  have hs : (fs.mkdir root).stat (cacheSpec L root rs).Dir ≠ StatResult.notExist := by
    have hmem : (cacheSpec L root rs).Dir ∈ (fs.mkdir root).dirs := by
      simp only [cacheSpec, FS.mkdir]
      split
      · exact hdir
      · exact List.mem_cons_of_mem _ hdir
    unfold FS.stat
    split
    · simp
    · simp [hmem]
  rw [ClonerUsingGitExec_hit L E rs fs gitProgram root hgit hroot hs]
  exact ⟨rfl, rfl, rfl, rfl, rfl⟩

/-- Witness of C6: the end-to-end scenario with the cache directory already on
disk. -/
theorem ClonerUsingGitExec_cache_hit_witness :
    cmds (ClonerUsingGitExec exLib exEnv exSpec
        ⟨["/home/u/.kustomize/github.com_example_repo_master", "/home/u/.kustomize"], []⟩).ops
        = []
      ∧ (ClonerUsingGitExec exLib exEnv exSpec
          ⟨["/home/u/.kustomize/github.com_example_repo_master", "/home/u/.kustomize"],
            []⟩).err = none :=
  have h := ClonerUsingGitExec_cache_hit exLib exEnv exSpec
    ⟨["/home/u/.kustomize/github.com_example_repo_master", "/home/u/.kustomize"], []⟩
    "/usr/bin/git" "/home/u/.kustomize" rfl rfl (by decide)
  ⟨h.2.1, h.2.2.2.1⟩

/-- C5, as stated, fails: when the clone of the first call fails, the cache
directory is not created and the second call, with the same spec and in the
same world (but for a fresh temporary directory), issues the clone command
again: two clone commands in total. -/
theorem ClonerUsingGitExec_second_call_clones_again :
    cloneCount (ClonerUsingGitExec exLib exEnvCloneFails exSpec exFS).ops = 1
      ∧ cloneCount
          (ClonerUsingGitExec exLib { exEnvCloneFails with newTmpDir := ("/tmp/kustomize-2", none) }
            exSpec (ClonerUsingGitExec exLib exEnvCloneFails exSpec exFS).fs).ops = 1 := by
  decide

theorem cloneCount_ClonerUsingGitExec_le {ρ : Type} (L : Lib ρ) (E : Env) (rs : RepoSpec ρ)
    (fs : FS) : cloneCount (ClonerUsingGitExec L E rs fs).ops ≤ 1 := by
  rcases hg : E.lookPath "git" with ⟨g, _ | e⟩
  · rcases hr : E.gitRootDir with ⟨root, _ | e⟩
    · by_cases hs : (fs.mkdir root).stat (cacheSpec L root rs).Dir = StatResult.notExist
      · rcases ht : E.newTmpDir with ⟨t, _ | e⟩
        · rcases hrun : E.run (cloneCmd L g (cacheSpec L root rs) t) with _ | e
          · rcases hm : E.rename t (cacheSpec L root rs).Dir with _ | e
            · rw [ClonerUsingGitExec_cloned L E rs fs g root t hg hr hs ht hrun hm]
              simp [cloneCount, cmds, headOps, cloneCmd, Command]
            · rw [ClonerUsingGitExec_renameFails L E rs fs g root t e hg hr hs ht hrun hm]
              simp [cloneCount, cmds, headOps, cloneCmd, Command]
          · rw [ClonerUsingGitExec_cloneFails L E rs fs g root t e hg hr hs ht hrun]
            simp [cloneCount, cmds, headOps, cloneCmd, Command]
        · rw [ClonerUsingGitExec_noTmp L E rs fs g root t e hg hr hs ht]
          simp [cloneCount, cmds, headOps]
      · rw [ClonerUsingGitExec_hit L E rs fs g root hg hr hs]
        simp [cloneCount, cmds, headOps]
    · rw [ClonerUsingGitExec_noRoot L E rs fs g root e hg hr]
      simp [cloneCount, cmds]
  · rw [ClonerUsingGitExec_noGit L E rs fs g e hg]
    simp [cloneCount, cmds]

theorem cloneCount_ClonerUsingGitExec_present {ρ : Type} (L : Lib ρ) (E : Env)
    (rs : RepoSpec ρ) (fs : FS)
    (h : ∀ root, fs.stat (cacheSpec L root rs).Dir ≠ StatResult.notExist ∨ E.gitRootDir.1 ≠ root) :
    cloneCount (ClonerUsingGitExec L E rs fs).ops = 0 := by
  rcases hg : E.lookPath "git" with ⟨g, _ | e⟩
  · rcases hr : E.gitRootDir with ⟨root, _ | e⟩
    · have hs : (fs.mkdir root).stat (cacheSpec L root rs).Dir ≠ StatResult.notExist := by
        rcases h root with h | h
        · exact FS.stat_mkdir_ne_notExist _ _ _ h
        · simp [hr] at h
      rw [ClonerUsingGitExec_hit L E rs fs g root hg hr hs]
      simp [cloneCount, cmds, headOps]
    · rw [ClonerUsingGitExec_noRoot L E rs fs g root e hg hr]
      simp [cloneCount, cmds]
  · rw [ClonerUsingGitExec_noGit L E rs fs g e hg]
    simp [cloneCount, cmds]

theorem cacheSpec_Dir_congr {ρ : Type} (L : Lib ρ) (root : String) (rs rs' : RepoSpec ρ)
    (hH : rs'.Host = rs.Host) (hO : rs'.OrgRepo = rs.OrgRepo) (hR : rs'.Ref = rs.Ref) :
    (cacheSpec L root rs').Dir = (cacheSpec L root rs).Dir := by
  simp only [cacheSpec, repoFolderName_defaultRef, hH, hO, hR]

/-- C5, amended: when the first of two successive calls with the same `Host`,
`OrgRepo` and `Ref` and the same root directory returns `nil` and its rename, if
it issued one, did not fail, the second call issues no clone command, and the
two calls together issue at most one. -/
theorem ClonerUsingGitExec_second_call {ρ : Type} (L : Lib ρ) (E₁ E₂ : Env)
    (rs rs' : RepoSpec ρ) (fs : FS)
    (hH : rs'.Host = rs.Host) (hO : rs'.OrgRepo = rs.OrgRepo) (hR : rs'.Ref = rs.Ref)
    (hroot : E₂.gitRootDir.1 = E₁.gitRootDir.1)
    (hok : (ClonerUsingGitExec L E₁ rs fs).err = none)
    (hmv : ∀ a b, Op.rename a b ∈ (ClonerUsingGitExec L E₁ rs fs).ops → E₁.rename a b = none) :
    cloneCount (ClonerUsingGitExec L E₂ rs' (ClonerUsingGitExec L E₁ rs fs).fs).ops = 0
      ∧ cloneCount (ClonerUsingGitExec L E₁ rs fs).ops
          + cloneCount (ClonerUsingGitExec L E₂ rs' (ClonerUsingGitExec L E₁ rs fs).fs).ops
          ≤ 1 := by
  have hle := cloneCount_ClonerUsingGitExec_le L E₁ rs fs
  suffices h0 :
      cloneCount (ClonerUsingGitExec L E₂ rs' (ClonerUsingGitExec L E₁ rs fs).fs).ops = 0 by
    exact ⟨h0, by omega⟩
  apply cloneCount_ClonerUsingGitExec_present
  intro root'
  by_cases hroot' : E₂.gitRootDir.1 = root'
  swap
  · exact Or.inr hroot'
  left
  rw [cacheSpec_Dir_congr L root' rs rs' hH hO hR, FS.stat_ne_notExist_iff]
  rcases hg : E₁.lookPath "git" with ⟨g, _ | e⟩
  · rcases hr : E₁.gitRootDir with ⟨root, _ | e⟩
    · have hrr : root' = root := by rw [← hroot', hroot, hr]
      subst hrr
      by_cases hs : (fs.mkdir root').stat (cacheSpec L root' rs).Dir = StatResult.notExist
      · rcases ht : E₁.newTmpDir with ⟨t, _ | e⟩
        · rcases hrun : E₁.run (cloneCmd L g (cacheSpec L root' rs) t) with _ | e
          · rcases hm : E₁.rename t (cacheSpec L root' rs).Dir with _ | e
            · rw [ClonerUsingGitExec_cloned L E₁ rs fs g root' t hg hr hs ht hrun hm]
              simp [FS.renamed]
            · rw [ClonerUsingGitExec_renameFails L E₁ rs fs g root' t e hg hr hs ht hrun hm]
                at hmv
              have := hmv t (cacheSpec L root' rs).Dir (by simp)
              rw [hm] at this
              cases this
          · rw [ClonerUsingGitExec_cloneFails L E₁ rs fs g root' t e hg hr hs ht hrun] at hok
            cases hok
        · rw [ClonerUsingGitExec_noTmp L E₁ rs fs g root' t e hg hr hs ht] at hok
          cases hok
      · rw [ClonerUsingGitExec_hit L E₁ rs fs g root' hg hr hs]
        exact (FS.stat_ne_notExist_iff _ _).1 hs
    · rw [ClonerUsingGitExec_noRoot L E₁ rs fs g root e hg hr] at hok
      cases hok
  · rw [ClonerUsingGitExec_noGit L E₁ rs fs g e hg] at hok
    cases hok

/-- Witness of C5, amended: the end-to-end scenario, one clone in the first
call and none in the second. -/
theorem ClonerUsingGitExec_second_call_witness :
    cloneCount (ClonerUsingGitExec exLib exEnv exSpec exFS).ops = 1
      ∧ cloneCount
          (ClonerUsingGitExec exLib exEnv exSpec
            (ClonerUsingGitExec exLib exEnv exSpec exFS).fs).ops = 0 :=
  ⟨by decide,
    (ClonerUsingGitExec_second_call exLib exEnv exEnv exSpec exSpec exFS rfl rfl rfl rfl
      (by decide) (by
        intro a b _
        rfl)).1⟩

/-- C8, as stated, fails: when git is not on the path, no git command fails,
yet `ClonerUsingGitExecV1` issues no command at all and returns an error. -/
theorem ClonerUsingGitExecV1_error_without_failing_step :
    (∀ c, exEnvNoGit.run c = none)
      ∧ cmds (ClonerUsingGitExecV1 exLib exEnvNoGit exSpec exFS).ops = []
      ∧ (ClonerUsingGitExecV1 exLib exEnvNoGit exSpec exFS).err
          = some (GoError.wrapped (GoError.ext "executable file not found in $PATH")
              "no 'git' program on path") :=
  ⟨fun _ => rfl, by decide, by decide⟩

/-- C8, amended: once git is found and the temporary directory is created,
the commands `ClonerUsingGitExecV1` issues are the listed steps (pull and
checkout present only when the fetch failed) up to and including the first
failing step other than the fetch; the call returns an error exactly when
there is such a step; and when every step other than the fetch succeeds the
call returns `nil`. -/
theorem ClonerUsingGitExecV1_commands {ρ : Type} (L : Lib ρ) (E : Env) (rs : RepoSpec ρ)
    (fs : FS) (git tmp : String) (hgit : E.lookPath "git" = (git, none))
    (htmp : E.newTmpDir = (tmp, none)) :
    cmds (ClonerUsingGitExecV1 L E rs fs).ops
        = uptoFirst (fun c => decide (c ≠ v1Fetch git tmp rs ∧ E.run c ≠ none))
            (v1Steps L git tmp rs (E.run (v1Fetch git tmp rs)).isSome)
      ∧ ((ClonerUsingGitExecV1 L E rs fs).err ≠ none
          ↔ ∃ c ∈ v1Steps L git tmp rs (E.run (v1Fetch git tmp rs)).isSome,
              c ≠ v1Fetch git tmp rs ∧ E.run c ≠ none)
      ∧ ((∀ c ∈ v1Steps L git tmp rs (E.run (v1Fetch git tmp rs)).isSome,
            c ≠ v1Fetch git tmp rs → E.run c = none) →
          (ClonerUsingGitExecV1 L E rs fs).err = none) := by
  rcases hi : E.run ⟨git, ["init", tmp], ""⟩ with _ | e₁
  rcases hr : E.run ⟨git, ["remote", "add", "origin", L.CloneSpec { rs with Dir := tmp }], tmp⟩
    with _ | e₂
  rcases hf : E.run ⟨git, ["fetch", "--depth=1", "origin", resolvedRef rs.Ref], tmp⟩
    with _ | e₃
  rcases hs : E.run ⟨git, ["reset", "--hard", "FETCH_HEAD"], tmp⟩ with _ | e₄
  rcases hu : E.run ⟨git, ["submodule", "update", "--init", "--recursive"], tmp⟩ with _ | e₅
  pick_goal 4
  rcases hp : E.run ⟨git, ["pull", "origin", "master"], tmp⟩ with _ | e₆
  rcases hc : E.run ⟨git, ["checkout", resolvedRef rs.Ref], tmp⟩ with _ | e₇
  rcases hs : E.run ⟨git, ["reset", "--hard", "FETCH_HEAD"], tmp⟩ with _ | e₄
  rcases hu : E.run ⟨git, ["submodule", "update", "--init", "--recursive"], tmp⟩ with _ | e₅
  all_goals
    simp_all [ClonerUsingGitExecV1, v1Finish, cmds, v1Steps, uptoFirst, v1Fetch,
      initCmd, remoteAddCmd, fetchCmd, pullCmd, checkoutCmd, resetCmd, submoduleCmd, Command,
      defaultRef_Ref, defaultRef_Dir, defaultRef_idem]

/-- Witness of C8, amended: when only the fetch fails, all seven commands are
issued, pull and checkout included, and the call returns `nil`. -/
theorem ClonerUsingGitExecV1_commands_witness :
    cmds (ClonerUsingGitExecV1 exLib exEnvFetchFails exSpec exFS).ops
        = [⟨"/usr/bin/git", ["init", "/tmp/kustomize-1"], ""⟩,
            ⟨"/usr/bin/git", ["remote", "add", "origin", "https://github.com/example/repo.git"],
              "/tmp/kustomize-1"⟩,
            ⟨"/usr/bin/git", ["fetch", "--depth=1", "origin", "master"], "/tmp/kustomize-1"⟩,
            ⟨"/usr/bin/git", ["pull", "origin", "master"], "/tmp/kustomize-1"⟩,
            ⟨"/usr/bin/git", ["checkout", "master"], "/tmp/kustomize-1"⟩,
            ⟨"/usr/bin/git", ["reset", "--hard", "FETCH_HEAD"], "/tmp/kustomize-1"⟩,
            ⟨"/usr/bin/git", ["submodule", "update", "--init", "--recursive"],
              "/tmp/kustomize-1"⟩]
      ∧ (ClonerUsingGitExecV1 exLib exEnvFetchFails exSpec exFS).err = none :=
  have h := ClonerUsingGitExecV1_commands exLib exEnvFetchFails exSpec exFS "/usr/bin/git"
    "/tmp/kustomize-1" rfl rfl
  ⟨h.1.trans (by decide), h.2.2 (by decide)⟩

/-- C2: for a spec with empty `Ref`, every command `ClonerUsingGitExec` issues
is the clone command with `master` after `-b`, built from a spec whose `Ref` is
`"master"`, and that command is issued whenever the lookups succeed, the cache
directory is absent and the temporary directory is created; every fetch
command `ClonerUsingGitExecV1` issues has `master` as its ref argument, with the
`Ref` of the spec equal to `"master"`, and the command
`fetch --depth=1 origin master` is issued whenever the lookup, the temporary
directory, init and remote add succeed. -/
theorem empty_Ref_clones_master {ρ : Type} (L : Lib ρ) (E : Env) (rs : RepoSpec ρ) (fs : FS)
    (hRef : rs.Ref = "") :
    (∀ c ∈ cmds (ClonerUsingGitExec L E rs fs).ops,
        c.args = ["clone", "--depth", "1", "-b", "master", "--single-branch",
            L.CloneSpec (ClonerUsingGitExec L E rs fs).spec, "."]
          ∧ (ClonerUsingGitExec L E rs fs).spec.Ref = "master")
      ∧ (∀ g root t, E.lookPath "git" = (g, none) → E.gitRootDir = (root, none) →
          (fs.mkdir root).stat (L.Join root (repoFolderName (defaultRef rs)))
            = StatResult.notExist →
          E.newTmpDir = (t, none) →
          (⟨g, ["clone", "--depth", "1", "-b", "master", "--single-branch",
                L.CloneSpec (ClonerUsingGitExec L E rs fs).spec, "."], t⟩ : Cmd)
              ∈ cmds (ClonerUsingGitExec L E rs fs).ops
            ∧ (ClonerUsingGitExec L E rs fs).spec.Ref = "master")
      ∧ (∀ c ∈ cmds (ClonerUsingGitExecV1 L E rs fs).ops, c.args.head? = some "fetch" →
          c.args = ["fetch", "--depth=1", "origin", "master"]
            ∧ (ClonerUsingGitExecV1 L E rs fs).spec.Ref = "master")
      ∧ (∀ g t, E.lookPath "git" = (g, none) → E.newTmpDir = (t, none) →
          E.run ⟨g, ["init", t], ""⟩ = none →
          E.run ⟨g, ["remote", "add", "origin", L.CloneSpec { rs with Dir := t }], t⟩ = none →
          (⟨g, ["fetch", "--depth=1", "origin", "master"], t⟩ : Cmd)
              ∈ cmds (ClonerUsingGitExecV1 L E rs fs).ops
            ∧ (ClonerUsingGitExecV1 L E rs fs).spec.Ref = "master") := by
  have hm : resolvedRef rs.Ref = "master" := by rw [hRef]; rfl
  refine ⟨?_, ?_, ?_, ?_⟩
  · rcases hg : E.lookPath "git" with ⟨g, _ | e⟩
    · rcases hr : E.gitRootDir with ⟨root, _ | e⟩
      · by_cases hs : (fs.mkdir root).stat (cacheSpec L root rs).Dir = StatResult.notExist
        · rcases ht : E.newTmpDir with ⟨t, _ | e⟩
          · rcases hrun : E.run (cloneCmd L g (cacheSpec L root rs) t) with _ | e
            · rcases hmv : E.rename t (cacheSpec L root rs).Dir with _ | e
              · rw [ClonerUsingGitExec_cloned L E rs fs g root t hg hr hs ht hrun hmv]
                simp [cmds, headOps, cloneCmd, Command, cacheSpec, defaultRef_Ref, hm]
              · rw [ClonerUsingGitExec_renameFails L E rs fs g root t e hg hr hs ht hrun hmv]
                simp [cmds, headOps, cloneCmd, Command, cacheSpec, defaultRef_Ref, hm]
            · rw [ClonerUsingGitExec_cloneFails L E rs fs g root t e hg hr hs ht hrun]
              simp [cmds, headOps, cloneCmd, Command, cacheSpec, defaultRef_Ref, hm]
          · rw [ClonerUsingGitExec_noTmp L E rs fs g root t e hg hr hs ht]
            simp [cmds, headOps]
        · rw [ClonerUsingGitExec_hit L E rs fs g root hg hr hs]
          simp [cmds, headOps]
      · rw [ClonerUsingGitExec_noRoot L E rs fs g root e hg hr]
        simp [cmds]
    · rw [ClonerUsingGitExec_noGit L E rs fs g e hg]
      simp [cmds]
  · intro g root t hg hr hs ht
    have hs' : (fs.mkdir root).stat (cacheSpec L root rs).Dir = StatResult.notExist := hs
    rcases hrun : E.run (cloneCmd L g (cacheSpec L root rs) t) with _ | e
    · rcases hmv : E.rename t (cacheSpec L root rs).Dir with _ | e
      · rw [ClonerUsingGitExec_cloned L E rs fs g root t hg hr hs' ht hrun hmv]
        simp [cmds, headOps, cloneCmd, Command, cacheSpec, defaultRef_Ref, hm]
      · rw [ClonerUsingGitExec_renameFails L E rs fs g root t e hg hr hs' ht hrun hmv]
        simp [cmds, headOps, cloneCmd, Command, cacheSpec, defaultRef_Ref, hm]
    · rw [ClonerUsingGitExec_cloneFails L E rs fs g root t e hg hr hs' ht hrun]
      simp [cmds, headOps, cloneCmd, Command, cacheSpec, defaultRef_Ref, hm]
  · rcases hg : E.lookPath "git" with ⟨g, _ | e⟩
    rcases ht : E.newTmpDir with ⟨t, _ | e⟩
    rcases hi : E.run ⟨g, ["init", t], ""⟩ with _ | e₁
    rcases hr : E.run ⟨g, ["remote", "add", "origin", L.CloneSpec { rs with Dir := t }], t⟩
      with _ | e₂
    rcases hf : E.run ⟨g, ["fetch", "--depth=1", "origin", "master"], t⟩ with _ | e₃
    rcases hs : E.run ⟨g, ["reset", "--hard", "FETCH_HEAD"], t⟩ with _ | e₄
    rcases hu : E.run ⟨g, ["submodule", "update", "--init", "--recursive"], t⟩ with _ | e₅
    pick_goal 4
    rcases hp : E.run ⟨g, ["pull", "origin", "master"], t⟩ with _ | e₆
    rcases hc : E.run ⟨g, ["checkout", "master"], t⟩ with _ | e₇
    rcases hs : E.run ⟨g, ["reset", "--hard", "FETCH_HEAD"], t⟩ with _ | e₄
    rcases hu : E.run ⟨g, ["submodule", "update", "--init", "--recursive"], t⟩ with _ | e₅
    all_goals
      simp_all [ClonerUsingGitExecV1, v1Finish, cmds,
        initCmd, remoteAddCmd, fetchCmd, pullCmd, checkoutCmd, resetCmd, submoduleCmd, Command,
        defaultRef_Ref, defaultRef_Dir, defaultRef_idem]
  · intro g t hg ht hi hr
    rcases hf : E.run ⟨g, ["fetch", "--depth=1", "origin", "master"], t⟩ with _ | e₃
    rcases hs : E.run ⟨g, ["reset", "--hard", "FETCH_HEAD"], t⟩ with _ | e₄
    rcases hu : E.run ⟨g, ["submodule", "update", "--init", "--recursive"], t⟩ with _ | e₅
    pick_goal 4
    rcases hp : E.run ⟨g, ["pull", "origin", "master"], t⟩ with _ | e₆
    rcases hc : E.run ⟨g, ["checkout", "master"], t⟩ with _ | e₇
    rcases hs : E.run ⟨g, ["reset", "--hard", "FETCH_HEAD"], t⟩ with _ | e₄
    rcases hu : E.run ⟨g, ["submodule", "update", "--init", "--recursive"], t⟩ with _ | e₅
    all_goals
      simp_all [ClonerUsingGitExecV1, v1Finish, cmds,
        initCmd, remoteAddCmd, fetchCmd, pullCmd, checkoutCmd, resetCmd, submoduleCmd, Command,
        defaultRef_Ref, defaultRef_Dir, defaultRef_idem]

/-- Witness of C2: the end-to-end scenario, whose `Ref` is empty; the clone
command and the fetch command, argument by argument. -/
theorem empty_Ref_clones_master_witness :
    exSpec.Ref = ""
      ∧ (⟨"/usr/bin/git",
            ["clone", "--depth", "1", "-b", "master", "--single-branch",
              "https://github.com/example/repo.git", "."], "/tmp/kustomize-1"⟩ : Cmd)
          ∈ cmds (ClonerUsingGitExec exLib exEnv exSpec exFS).ops
      ∧ (⟨"/usr/bin/git", ["fetch", "--depth=1", "origin", "master"], "/tmp/kustomize-1"⟩ : Cmd)
          ∈ cmds (ClonerUsingGitExecV1 exLib exEnv exSpec exFS).ops :=
  have h := empty_Ref_clones_master exLib exEnv exSpec exFS rfl
  ⟨rfl,
    (h.2.1 "/usr/bin/git" "/home/u/.kustomize" "/tmp/kustomize-1" rfl rfl (by decide) rfl).1,
    (h.2.2.2 "/usr/bin/git" "/tmp/kustomize-1" rfl rfl rfl rfl).1⟩

/-- C9, as stated, fails: a command that exits non-zero within the duration
after printing a message makes `gitRunner.run` return the wrapped error with
the empty string, not with the captured output. -/
theorem gitRunner_run_drops_output :
    exProcFails.elapsed ⟨"/usr/bin/git", ["fetch", "origin"], "/tmp/kustomize-1"⟩
        ≤ exRunner.duration
      ∧ exProcFails.combinedOutput ⟨"/usr/bin/git", ["fetch", "origin"], "/tmp/kustomize-1"⟩
          = ("fatal: repository not found\n", some (GoError.ext "exit status 128"))
      ∧ exRunner.run exProcFails ["fetch", "origin"]
          = ("", some (GoError.wrapped (GoError.ext "exit status 128")
              "git cmd = '/usr/bin/git fetch origin'")) := by
  decide

/-- C9, amended: for a command that exits non-zero within the duration,
`gitRunner.run` returns the error of the command wrapped with the command line
(what `cmd.String()` prints), together with the empty string; for a command
that exceeds the duration the error it returns is the timeout error of the
timed call. -/
theorem gitRunner_run_results (r : gitRunner) (P : ProcEnv) (args : List String) :
    (∀ o e, P.elapsed ⟨r.gitProgram, args, r.dir⟩ ≤ r.duration →
        P.combinedOutput ⟨r.gitProgram, args, r.dir⟩ = (o, some e) →
        r.run P args
          = ("", some (GoError.wrapped e
              ("git cmd = '" ++ P.cmdString ⟨r.gitProgram, args, r.dir⟩ ++ "'"))))
      ∧ (r.duration < P.elapsed ⟨r.gitProgram, args, r.dir⟩ →
          (r.run P args).2
            = some (GoError.timeOut r.duration
                (P.cmdString ⟨r.gitProgram, args, r.dir⟩))) := by
  refine ⟨?_, ?_⟩
  · intro o e ht ho
    simp [gitRunner.run, TimedCall, Command, ht, ho, Wrap]
  · intro ht
    simp [gitRunner.run, TimedCall, Command, Nat.not_le.2 ht]

/-- Witness of C9, amended: a fetch that exits with status 128 after one
second under a 27 second timeout, and a fetch that needs 60 seconds. -/
theorem gitRunner_run_results_witness :
    exRunner.run exProcFails ["fetch", "origin"]
        = ("", some (GoError.wrapped (GoError.ext "exit status 128")
            "git cmd = '/usr/bin/git fetch origin'"))
      ∧ (exRunner.run exProcSlow ["fetch", "origin"]).2
          = some (GoError.timeOut 27000000000 "/usr/bin/git fetch origin") :=
  ⟨((gitRunner_run_results exRunner exProcFails ["fetch", "origin"]).1
      "fatal: repository not found\n" (GoError.ext "exit status 128") (by decide) rfl).trans
      (by decide),
    ((gitRunner_run_results exRunner exProcSlow ["fetch", "origin"]).2 (by decide)).trans
      (by decide)⟩

end Git
